import Mathlib

/-!
Verification of `src/github.com/getlantern/flashlight/client/chained.go`
(package `client` of the lantern repository).

The Go code is shallowly embedded below. Mutable state (the `checkTargets`
channel-backed site list, HTTP request headers) is passed explicitly; the two
process-wide override variables (`ForceChainedProxyAddr`, `ForceAuthToken`)
become explicit parameters; external collaborators (the pluggable-transport
registry, the chained-connection layer, `withtimeout.Do`, `idletiming.Conn`,
the HTTP round trip) are represented at their interface boundary: the round
trip outcome and the timed-out flag are inputs, logging is irrelevant to state
and dropped.
-/

namespace Chained

/-! ### Go standard library fragments used by the code -/

/-- `net/textproto` token characters (`isTokenTable`): ASCII letters, digits
and the punctuation admitted in MIME header field names. -/
def isTokenChar (c : Char) : Bool :=
  (c.isAlpha || c.isDigit) ||
  ([33, 35, 36, 37, 38, 39, 42, 43, 45, 46, 94, 95, 96, 124, 126] : List Nat).any
    (fun n => c.toNat = n)

/-- Core loop of `textproto.CanonicalMIMEHeaderKey`: uppercase the first
letter and every letter following a dash, lowercase the rest. -/
def canonicalizeChars : List Char → Bool → List Char
  | [], _ => []
  | c :: rest, upper =>
    (if upper then c.toUpper else c.toLower) :: canonicalizeChars rest (c = Char.ofNat 45)

/-- `net/textproto.CanonicalMIMEHeaderKey`: keys containing non-token bytes
are returned unchanged, otherwise canonicalized dash-segment-wise. -/
def canonicalMIMEHeaderKey (s : String) : String :=
  if s.toList.all isTokenChar then ⟨canonicalizeChars s.toList true⟩ else s

/-- `net/http.Header`: a map from canonical keys to lists of values, embedded
as an association list (the Go map's iteration order is irrelevant to every
property below, which only reads values key-wise). -/
abbrev Header : Type := List (String × List String)

/-- `Header.Add(key, value)`: appends `value` to the values of the canonical
key. -/
def Header.add (h : Header) (key value : String) : Header :=
  let k := canonicalMIMEHeaderKey key
  if h.any (fun p => p.1 = k) then
    h.map (fun p => if p.1 = k then (p.1, p.2 ++ [value]) else p)
  else h ++ [(k, [value])]

/-- `Header.Set(key, value)`: replaces all values of the canonical key with
the single given value. -/
def Header.set (h : Header) (key value : String) : Header :=
  let k := canonicalMIMEHeaderKey key
  if h.any (fun p => p.1 = k) then
    h.map (fun p => if p.1 = k then (p.1, [value]) else p)
  else h ++ [(k, [value])]

/-- The list of values stored under a key (`Header[k]`; empty when absent). -/
def Header.values (h : Header) (key : String) : List String :=
  let k := canonicalMIMEHeaderKey key
  match h.find? (fun p => p.1 = k) with
  | some p => p.2
  | none => []

/-- `strings.HasSuffix s suffix` (byte-wise suffix test). -/
def hasSuffix (s suffix : String) : Bool :=
  List.isSuffixOf suffix.toList s.toList

/-- Index of the last occurrence of `c` in `l` (`net.last`), if any. -/
def lastIndexOf (l : List Char) (c : Char) : Option Nat :=
  match l with
  | [] => none
  | a :: rest =>
    match lastIndexOf rest c with
    | some i => some (i + 1)
    | none => if a = c then some 0 else none

/-- Index of the first occurrence of `c` in `l` (`net.byteIndex`), if any. -/
def firstIndexOf (l : List Char) (c : Char) : Option Nat :=
  match l with
  | [] => none
  | a :: rest =>
    if a = c then some 0 else (firstIndexOf rest c).map (· + 1)

/-- `net.SplitHostPort`: the port starts after the last colon; a leading `[`
opens an IPv6 bracket form whose `]` must sit just before that colon; a
bracketless host may contain neither `:` nor `%`; stray brackets are errors.
All error returns collapse to `none`. -/
def splitHostPort (hostport : String) : Option (String × String) :=
  let cs := hostport.toList
  let colon := Char.ofNat 58
  let lbrack := Char.ofNat 91
  let rbrack := Char.ofNat 93
  let percent := Char.ofNat 37
  match lastIndexOf cs colon with
  | none => none  -- missing port in address
  | some i =>
    if cs.head? = some lbrack then
      match firstIndexOf cs rbrack with
      | none => none  -- missing right bracket
      | some e =>
        if e + 1 = cs.length then none  -- missing port
        else if e + 1 ≠ i then none  -- too many colons / missing port
        else if (firstIndexOf (cs.drop 1) lbrack).isSome then none
        else if (firstIndexOf (cs.drop (e + 1)) rbrack).isSome then none
        else some (⟨(cs.take e).drop 1⟩, ⟨cs.drop (i + 1)⟩)
    else
      let host := cs.take i
      if (firstIndexOf host colon).isSome then none  -- too many colons
      else if (firstIndexOf host percent).isSome then none  -- missing brackets
      else if (firstIndexOf cs lbrack).isSome then none
      else if (firstIndexOf cs rbrack).isSome then none
      else some (⟨host⟩, ⟨cs.drop (i + 1)⟩)

/-! ### The data model of `chained.go` -/

/-- `idleTimeout = 1 * time.Hour`, in seconds. -/
def idleTimeoutSeconds : Nat := 3600

/-- `internalSiteSuffixes`: lantern internal sites never used as check
targets. -/
def internalSiteSuffixes : List String :=
  ["getlantern.org", "getiantem.org", "lantern.io"]

/-- The `siteList` type: a `chan string`; `none` is the nil (uninitialized)
channel, `some (cap, elems)` a buffered channel of capacity `cap` currently
holding `elems` in FIFO order. -/
structure siteList where
  ch : Option (Nat × List String)
deriving DecidableEq

/-- `siteList.initIfNecessary(size)`: allocate the channel once. -/
def siteList.initIfNecessary (q : siteList) (size : Nat) : siteList :=
  if q.ch = none then ⟨some (size, [])⟩ else q

/-- `siteList.add(addr)`: non-blocking send; dropped when the buffer is full
(and, on a nil channel, the send never proceeds so the default branch is
taken). -/
def siteList.add (q : siteList) (addr : String) : siteList :=
  match q.ch with
  | none => q
  | some (cap, elems) =>
    if elems.length < cap then ⟨some (cap, elems ++ [addr])⟩ else q

/-- `siteList.get()`: non-blocking receive; the zero value `""` when nothing
is available (also on a nil channel). -/
def siteList.get (q : siteList) : String × siteList :=
  match q.ch with
  | none => ("", q)
  | some (cap, elems) =>
    match elems with
    | [] => ("", q)
    | a :: rest => (a, ⟨some (cap, rest)⟩)

/-- Number of resident entries. -/
def siteList.size (q : siteList) : Nat :=
  match q.ch with
  | none => 0
  | some (_, elems) => elems.length

/-- `ChainedServerInfo`, with `map[string]string` settings as an association
list. -/
structure ChainedServerInfo where
  Addr : String
  Cert : String
  AuthToken : String
  Trusted : Bool
  PluggableTransport : String
  PluggableTransportSettings : List (String × String)
  checkTargets : siteList
deriving DecidableEq

/-- An HTTP request, restricted to the fields the code reads or writes. -/
structure Request where
  method : String
  url : String
  header : Header
deriving DecidableEq

/-- The effective auth token computed in the first lines of `attachHeaders`:
start from the server's `AuthToken` and replace it by the process-wide
`ForceAuthToken` override when that is non-empty. -/
def effectiveAuthToken (s : ChainedServerInfo) (forceAuthToken : String) : String :=
  if forceAuthToken ≠ "" then forceAuthToken else s.AuthToken

/-- `attachHeaders`: a non-empty effective auth token is `Add`ed under
`X-LANTERN-AUTH-TOKEN`, then the device ID is `Set` unconditionally under
`X-LANTERN-DEVICE-ID`. `forceAuthToken` is the global `ForceAuthToken` passed
explicitly. -/
def ChainedServerInfo.attachHeaders (s : ChainedServerInfo) (forceAuthToken : String)
    (req : Request) (deviceID : String) : Request :=
  let authToken := effectiveAuthToken s forceAuthToken
  let req1 :=
    if authToken ≠ "" then
      { req with header := req.header.add "X-LANTERN-AUTH-TOKEN" authToken }
    else req
  { req1 with header := req1.header.set "X-LANTERN-DEVICE-ID" deviceID }

/-- `addCheckTarget(addr)`: split into host and port (malformed addresses are
logged and skipped), keep only port-80 addresses whose host is under no
internal suffix, then non-blockingly add. -/
def ChainedServerInfo.addCheckTarget (s : ChainedServerInfo) (addr : String) :
    ChainedServerInfo :=
  match splitHostPort addr with
  | none => s  -- log.Errorf, then return
  | some (host, port) =>
    if port ≠ "80" then s
    else if internalSiteSuffixes.any (fun suf => hasSuffix host suf) then s
    else { s with checkTargets := s.checkTargets.add addr }

/-- The outcome of `rt.RoundTrip(req)` as seen by `check`: a transport-level
error, or a response carrying a status code. -/
inductive RoundTrip where
  | transportError
  | response (statusCode : Nat)

/-- A dialed connection: raw from the chained dial path, or wrapped by
`idletiming.Conn` with an idle timeout (the wrapper's close-and-log callback
is external to this core). -/
inductive Conn where
  | raw (id : Nat)
  | idleWrapped (inner : Conn) (timeoutSeconds : Nat)
deriving DecidableEq

/-- The probe request built by `check` for a popped target: `http.NewRequest`
with method HEAD and the synthetic URL on the empty sentinel (then marked
`X-Lantern-Ping: small`) or `http://<target>/index.html` on a real target,
followed by `attachHeaders`. -/
def checkRequest (s : ChainedServerInfo) (forceAuthToken deviceID checkTarget : String) :
    Request :=
  let url :=
    if checkTarget = "" then "http://ping-chained-server"
    else "http://" ++ checkTarget ++ "/index.html"
  let req : Request := { method := "HEAD", url := url, header := [] }
  let req1 :=
    if checkTarget = "" then
      { req with header := req.header.set "X-Lantern-Ping" "small" }
    else req
  s.attachHeaders forceAuthToken req1 deviceID

/-- The body of the closure passed to `withtimeout.Do` in `check`: transport
error means false; a status `< 500` means reachable, and a real (non-empty)
target is then pushed back into the list; `≥ 500` means false. -/
def checkInnerBody (targets : siteList) (checkTarget : String) (rt : RoundTrip) :
    Bool × siteList :=
  match rt with
  | .transportError => (false, targets)  -- log.Debugf, return false
  | .response code =>
    if code < 500 then
      (true, if checkTarget ≠ "" then targets.add checkTarget else targets)
    else (false, targets)

/-- `check(dial, deviceID)`: pop a target, build the probe request, run the
round trip under `withtimeout.Do(60 * time.Second, ...)` and return
`!timedOut && ok`. The round-trip outcome and the 60-second-bound verdict of
the external `withtimeout` executor are inputs; the inner closure's side
effect on `checkTargets` happens in the worker even when the bound was
exceeded. The probe request is returned alongside for inspection. -/
def ChainedServerInfo.check (s : ChainedServerInfo) (forceAuthToken deviceID : String)
    (rt : RoundTrip) (timedOut : Bool) : Bool × Request × ChainedServerInfo :=
  let popped := s.checkTargets.get
  let checkTarget := popped.1
  let req := checkRequest s forceAuthToken deviceID checkTarget
  let inner := checkInnerBody popped.2 checkTarget rt
  (!timedOut && inner.1, req, { s with checkTargets := inner.2 })

/-- The `DialFN` closure of the built `balancer.Dialer`: run the chained dial
path `d(network, addr)` (its outcome is an input here); on error return it
unchanged; on success record the dialed address as a check-target candidate
and wrap the connection with the 1-hour `idletiming` auto-closer. -/
def ChainedServerInfo.DialFN (s : ChainedServerInfo) (network addr : String)
    (dialOutcome : Except String Conn) : Except String Conn × ChainedServerInfo :=
  match network, dialOutcome with
  | _, .error e => (.error e, s)
  | _, .ok conn =>
    let s1 := s.addCheckTarget addr
    (.ok (Conn.idleWrapped conn idleTimeoutSeconds), s1)

/-- A dial factory `func(*ChainedServerInfo, string) (dialFN, error)`. The
raw dial function it returns is represented by the address of the upstream
proxy that dial connects to — the interface-level observable of the
otherwise-external transport implementation. -/
abbrev DialFactory : Type := ChainedServerInfo → String → Except String String

/-- The record handed to the balancer. The `DialFN`, `Check` and `OnRequest`
closures it carries are the state-explicit functions
`ChainedServerInfo.DialFN`, `ChainedServerInfo.check` and
`ChainedServerInfo.attachHeaders` above, bound to `server` and `deviceID`;
`DialServerAddr` is the upstream address targeted by the chained dial path. -/
structure BalancerDialer where
  Label : String
  Trusted : Bool
  DialServerAddr : String
  server : ChainedServerInfo
  deviceID : String

/-- `(*ChainedServerInfo).Dialer(deviceID)`: look the transport name up in
`pluggableTransports` (an error when no factory is registered), invoke the
factory (wrapping its error), build the label, initialize `checkTargets` with
capacity 10, and assemble the `balancer.Dialer`. The registry map is a
parameter because its entries live in other files of the package. -/
def Dialer (pluggableTransports : String → Option DialFactory)
    (s : ChainedServerInfo) (deviceID : String) : Except String BalancerDialer :=
  match pluggableTransports s.PluggableTransport with
  | none => .error ("No dial factory defined for transport: " ++ s.PluggableTransport)
  | some dialFactory =>
    match dialFactory s deviceID with
    | .error e => .error ("Unable to construct dialFN: " ++ e)
    | .ok dialServerAddr =>
      let trusted := if s.Trusted then "(trusted) " else ""
      let label := trusted ++ "chained proxy at " ++ s.Addr ++ " [" ++ s.PluggableTransport ++ "]"
      let s2 := { s with checkTargets := s.checkTargets.initIfNecessary 10 }
      .ok { Label := label, Trusted := s.Trusted, DialServerAddr := dialServerAddr,
            server := s2, deviceID := deviceID }

/-- Modelled from the spec: the entries of the `pluggableTransports` registry
are in files of this package missing from the snippet. Per the spec's
process-wide override surface and the declaration comment of
`ForceChainedProxyAddr` ("If specified, all proxying will go through this
address"), the default (empty-name) transport's raw dial targets the forced
chained-proxy address when that override is non-empty and the configured
server address otherwise. -/
def defaultDialFactory (forceChainedProxyAddr : String) : DialFactory :=
  fun s _ =>
    .ok (if forceChainedProxyAddr ≠ "" then forceChainedProxyAddr else s.Addr)

/-- Modelled from the spec: the registry holding only the default transport,
parameterized by the forced chained-proxy address it reads. -/
def defaultRegistry (forceChainedProxyAddr : String) : String → Option DialFactory :=
  fun name => if name = "" then some (defaultDialFactory forceChainedProxyAddr) else none

/-- The upstream address the built dialer's dial path targets, when
construction succeeded. -/
def builtDialServerAddr : Except String BalancerDialer → Option String
  | .ok d => some d.DialServerAddr
  | .error _ => none

/-- An operation on a `siteList`, for stating sequence invariants. -/
inductive SiteOp where
  | add (addr : String)
  | get
deriving DecidableEq

/-- Run a sequence of `add`/`get` operations, each `get` discarding the
returned address. -/
def runOps (q : siteList) : List SiteOp → siteList
  | [] => q
  | SiteOp.add a :: rest => runOps (q.add a) rest
  | SiteOp.get :: rest => runOps (q.get).2 rest

/-- A sample server configuration used to instantiate theorems: default
transport, capacity-10 empty check-target list. -/
def sampleServer : ChainedServerInfo :=
  { Addr := "srv:443", Cert := "", AuthToken := "T", Trusted := false,
    PluggableTransport := "", PluggableTransportSettings := [],
    checkTargets := ⟨some (10, [])⟩ }

/-- A sample request with no headers yet. -/
def sampleRequest : Request :=
  { method := "GET", url := "http://example.com/", header := [] }

/-- `sampleServer` with one queued check target. -/
def sampleServerLoaded : ChainedServerInfo :=
  { sampleServer with checkTargets := ⟨some (10, ["t:80"])⟩ }

/-- Invariant of the check-target list as built by `Dialer`: either still the
nil channel, or a capacity-10 channel holding at most 10 entries. -/
def siteListInv (q : siteList) : Prop :=
  q.ch = none ∨ ∃ l : List String, q.ch = some (10, l) ∧ l.length ≤ 10

/-! ### Association-list lemmas about the header embedding -/

theorem find?_map_of_pred {α : Type} (l : List α) (f : α → α) (pred : α → Bool)
    (hpred : ∀ a, pred (f a) = pred a) :
    (l.map f).find? pred = (l.find? pred).map f := by
  induction l with
  | nil => rfl
  | cons a t ih =>
    rw [List.map_cons]
    cases hp : pred a with
    | true =>
      rw [List.find?_cons_of_pos _ (by rw [hpred]; exact hp),
        List.find?_cons_of_pos _ hp]
      rfl
    | false =>
      rw [List.find?_cons_of_neg _ (by simp [hpred, hp]),
        List.find?_cons_of_neg _ (by simp [hp]), ih]

theorem find?_of_any_eq_false (l : List (String × List String)) (ck : String)
    (hany : ¬l.any (fun p => p.1 = ck)) :
    l.find? (fun p => p.1 = ck) = none := by
  rw [List.find?_eq_none]
  intro x hx
  rw [Bool.not_eq_true, List.any_eq_false] at hany
  exact hany x hx

theorem Header.values_add_same (h : Header) (k v : String) :
    (Header.add h k v).values k = h.values k ++ [v] := by
  simp only [Header.add, Header.values]
  by_cases hany : h.any (fun p => p.1 = canonicalMIMEHeaderKey k)
  · rw [if_pos hany,
      find?_map_of_pred _ _ _ (fun a => by
        by_cases ha : a.1 = canonicalMIMEHeaderKey k <;> simp [ha])]
    cases hfind : h.find? (fun p => decide (p.1 = canonicalMIMEHeaderKey k)) with
    | none =>
      rw [List.find?_eq_none] at hfind
      rw [List.any_eq_true] at hany
      obtain ⟨x, hx, hpx⟩ := hany
      exact absurd hpx (hfind x hx)
    | some p =>
      have hp : p.1 = canonicalMIMEHeaderKey k := by simpa using List.find?_some hfind
      simp [hp]
  · rw [if_neg hany, List.find?_append, find?_of_any_eq_false _ _ hany,
      List.find?_cons_of_pos _ (by simp)]
    rfl

theorem Header.values_add_ne (h : Header) (k k' v : String)
    (hne : canonicalMIMEHeaderKey k' ≠ canonicalMIMEHeaderKey k) :
    (Header.add h k v).values k' = h.values k' := by
  simp only [Header.add, Header.values]
  by_cases hany : h.any (fun p => p.1 = canonicalMIMEHeaderKey k)
  · rw [if_pos hany,
      find?_map_of_pred _ _ _ (fun a => by
        by_cases ha : a.1 = canonicalMIMEHeaderKey k <;> simp [ha])]
    cases hfind : h.find? (fun p => decide (p.1 = canonicalMIMEHeaderKey k')) with
    | none => rfl
    | some p =>
      have hp : p.1 = canonicalMIMEHeaderKey k' := by simpa using List.find?_some hfind
      have hpk : ¬p.1 = canonicalMIMEHeaderKey k := by rw [hp]; exact hne
      simp [hpk]
  · rw [if_neg hany, List.find?_append,
      List.find?_cons_of_neg _ (by simpa using Ne.symm hne), List.find?_nil, Option.or_none]

theorem Header.values_set_same (h : Header) (k v : String) :
    (Header.set h k v).values k = [v] := by
  simp only [Header.set, Header.values]
  by_cases hany : h.any (fun p => p.1 = canonicalMIMEHeaderKey k)
  · rw [if_pos hany,
      find?_map_of_pred _ _ _ (fun a => by
        by_cases ha : a.1 = canonicalMIMEHeaderKey k <;> simp [ha])]
    cases hfind : h.find? (fun p => decide (p.1 = canonicalMIMEHeaderKey k)) with
    | none =>
      rw [List.find?_eq_none] at hfind
      rw [List.any_eq_true] at hany
      obtain ⟨x, hx, hpx⟩ := hany
      exact absurd hpx (hfind x hx)
    | some p =>
      have hp : p.1 = canonicalMIMEHeaderKey k := by simpa using List.find?_some hfind
      simp [hp]
  · rw [if_neg hany, List.find?_append, find?_of_any_eq_false _ _ hany,
      List.find?_cons_of_pos _ (by simp)]
    rfl

theorem Header.values_set_ne (h : Header) (k k' v : String)
    (hne : canonicalMIMEHeaderKey k' ≠ canonicalMIMEHeaderKey k) :
    (Header.set h k v).values k' = h.values k' := by
  simp only [Header.set, Header.values]
  by_cases hany : h.any (fun p => p.1 = canonicalMIMEHeaderKey k)
  · rw [if_pos hany,
      find?_map_of_pred _ _ _ (fun a => by
        by_cases ha : a.1 = canonicalMIMEHeaderKey k <;> simp [ha])]
    cases hfind : h.find? (fun p => decide (p.1 = canonicalMIMEHeaderKey k')) with
    | none => rfl
    | some p =>
      have hp : p.1 = canonicalMIMEHeaderKey k' := by simpa using List.find?_some hfind
      have hpk : ¬p.1 = canonicalMIMEHeaderKey k := by rw [hp]; exact hne
      simp [hpk]
  · rw [if_neg hany, List.find?_append,
      List.find?_cons_of_neg _ (by simpa using Ne.symm hne), List.find?_nil, Option.or_none]

/-! ### Behavior of attachHeaders on individual header keys -/

theorem attachHeaders_deviceID (s : ChainedServerInfo) (fa : String) (req : Request)
    (dev : String) :
    (s.attachHeaders fa req dev).header.values "X-LANTERN-DEVICE-ID" = [dev] := by
  simp only [ChainedServerInfo.attachHeaders]
  split
  · exact Header.values_set_same _ _ _
  · exact Header.values_set_same _ _ _

theorem attachHeaders_authToken_nonempty (s : ChainedServerInfo) (fa : String)
    (req : Request) (dev : String) (htok : effectiveAuthToken s fa ≠ "") :
    (s.attachHeaders fa req dev).header.values "X-LANTERN-AUTH-TOKEN"
      = req.header.values "X-LANTERN-AUTH-TOKEN" ++ [effectiveAuthToken s fa] := by
  simp only [ChainedServerInfo.attachHeaders]
  rw [if_pos htok, Header.values_set_ne _ _ _ _ (by decide)]
  exact Header.values_add_same _ _ _

theorem attachHeaders_authToken_empty (s : ChainedServerInfo) (fa : String)
    (req : Request) (dev : String) (htok : effectiveAuthToken s fa = "") :
    (s.attachHeaders fa req dev).header.values "X-LANTERN-AUTH-TOKEN"
      = req.header.values "X-LANTERN-AUTH-TOKEN" := by
  simp only [ChainedServerInfo.attachHeaders]
  rw [if_neg (by simpa using htok), Header.values_set_ne _ _ _ _ (by decide)]

theorem attachHeaders_values_other (s : ChainedServerInfo) (fa : String)
    (req : Request) (dev k : String)
    (h1 : canonicalMIMEHeaderKey k ≠ canonicalMIMEHeaderKey "X-LANTERN-AUTH-TOKEN")
    (h2 : canonicalMIMEHeaderKey k ≠ canonicalMIMEHeaderKey "X-LANTERN-DEVICE-ID") :
    (s.attachHeaders fa req dev).header.values k = req.header.values k := by
  simp only [ChainedServerInfo.attachHeaders]
  split
  · rw [Header.values_set_ne _ _ _ _ h2, Header.values_add_ne _ _ _ _ h1]
  · rw [Header.values_set_ne _ _ _ _ h2]

theorem attachHeaders_method (s : ChainedServerInfo) (fa : String) (req : Request)
    (dev : String) : (s.attachHeaders fa req dev).method = req.method := by
  simp only [ChainedServerInfo.attachHeaders]
  split <;> rfl

theorem attachHeaders_url (s : ChainedServerInfo) (fa : String) (req : Request)
    (dev : String) : (s.attachHeaders fa req dev).url = req.url := by
  simp only [ChainedServerInfo.attachHeaders]
  split <;> rfl

/-! ### Invariant preservation for the bounded site list -/

theorem siteListInv_add (q : siteList) (a : String) (h : siteListInv q) :
    siteListInv (q.add a) := by
  rcases h with h | ⟨l, hch, hlen⟩
  · left
    simp [siteList.add, h]
  · by_cases hlt : l.length < 10
    · right
      exact ⟨l ++ [a], by simp [siteList.add, hch, hlt], by simp; omega⟩
    · right
      exact ⟨l, by simp [siteList.add, hch, hlt], hlen⟩

theorem siteListInv_get (q : siteList) (h : siteListInv q) :
    siteListInv (q.get).2 := by
  rcases h with h | ⟨l, hch, hlen⟩
  · left
    simp [siteList.get, h]
  · cases l with
    | nil => exact Or.inr ⟨[], by simp [siteList.get, hch], by simp⟩
    | cons a t =>
      refine Or.inr ⟨t, by simp [siteList.get, hch], ?_⟩
      simp at hlen
      omega

theorem siteListInv_runOps (q : siteList) (ops : List SiteOp) (h : siteListInv q) :
    siteListInv (runOps q ops) := by
  induction ops generalizing q with
  | nil => exact h
  | cons op rest ih =>
    cases op with
    | add a => exact ih _ (siteListInv_add q a h)
    | get => exact ih _ (siteListInv_get q h)

theorem siteListInv_size (q : siteList) (h : siteListInv q) : q.size ≤ 10 := by
  rcases h with h | ⟨l, hch, hlen⟩
  · simp [siteList.size, h]
  · simpa [siteList.size, hch] using hlen

/-! ### The claims -/

/-- C1: in every run of `check`, a transport-level round-trip error yields
`false`; a response with status code `< 500` yields `true`; a status code
`≥ 500` yields `false`; and when the 60-second bound is exceeded, `check`
returns `false` regardless of the round trip's eventual outcome. -/
theorem C1_check_classification (s : ChainedServerInfo) (fa dev : String)
    (rt : RoundTrip) (timedOut : Bool) (code : Nat) :
    (rt = RoundTrip.transportError → timedOut = false →
      (s.check fa dev rt timedOut).1 = false) ∧
    (rt = RoundTrip.response code → code < 500 → timedOut = false →
      (s.check fa dev rt timedOut).1 = true) ∧
    (rt = RoundTrip.response code → 500 ≤ code →
      (s.check fa dev rt timedOut).1 = false) ∧
    (timedOut = true → (s.check fa dev rt timedOut).1 = false) := by
  refine ⟨?_, ?_, ?_, ?_⟩
  · rintro rfl rfl
    simp [ChainedServerInfo.check, checkInnerBody]
  · rintro rfl hc rfl
    simp [ChainedServerInfo.check, checkInnerBody, hc]
  · rintro rfl hc
    simp [ChainedServerInfo.check, checkInnerBody, Nat.not_lt.mpr hc]
  · rintro rfl
    simp [ChainedServerInfo.check]

theorem C1_check_classification_witness :
    (sampleServer.check "" "dev" (RoundTrip.response 200) false).1 = true ∧
    (sampleServer.check "" "dev" (RoundTrip.response 404) false).1 = true ∧
    (sampleServer.check "" "dev" (RoundTrip.response 503) false).1 = false ∧
    (sampleServer.check "" "dev" RoundTrip.transportError false).1 = false ∧
    (sampleServer.check "" "dev" (RoundTrip.response 200) true).1 = false := by
  refine ⟨?_, ?_, ?_, ?_, ?_⟩
  · exact (C1_check_classification sampleServer "" "dev" _ false 200).2.1 rfl
      (by decide) rfl
  · exact (C1_check_classification sampleServer "" "dev" _ false 404).2.1 rfl
      (by decide) rfl
  · exact (C1_check_classification sampleServer "" "dev" _ false 503).2.2.1 rfl
      (by decide)
  · exact (C1_check_classification sampleServer "" "dev" _ false 0).1 rfl rfl
  · exact (C1_check_classification sampleServer "" "dev" _ true 200).2.2.2 rfl

/-- C3: the built dial function wraps a successful chained dial in the 1-hour
idle-timeout auto-closer and records the dialed address per the
`addCheckTarget` policy; a failed chained dial returns exactly that error and
leaves the server (in particular its check-target set) unchanged. -/
theorem C3_DialFN (s : ChainedServerInfo) (network addr : String)
    (c : Conn) (e : String) :
    s.DialFN network addr (Except.error e) = (Except.error e, s) ∧
    s.DialFN network addr (Except.ok c)
      = (Except.ok (Conn.idleWrapped c idleTimeoutSeconds), s.addCheckTarget addr) ∧
    idleTimeoutSeconds = 3600 :=
  ⟨rfl, rfl, rfl⟩

/-- C4: when no dial factory is registered for the configured transport name
(also for a non-empty name), `Dialer` returns an error and no dialer. -/
theorem C4_Dialer_unsupported (registry : String → Option DialFactory)
    (s : ChainedServerInfo) (dev : String)
    (h : registry s.PluggableTransport = none) :
    Dialer registry s dev
      = Except.error ("No dial factory defined for transport: " ++ s.PluggableTransport)
    ∧ ∀ b : BalancerDialer, Dialer registry s dev ≠ Except.ok b := by
  have h1 : Dialer registry s dev
      = Except.error ("No dial factory defined for transport: " ++ s.PluggableTransport) := by
    unfold Dialer
    rw [h]
  refine ⟨h1, fun b hb => ?_⟩
  rw [h1] at hb
  exact Except.noConfusion hb

theorem C4_Dialer_unsupported_witness :
    Dialer (fun _ => none) { sampleServer with PluggableTransport := "obfs4" } "dev"
      = Except.error ("No dial factory defined for transport: " ++ "obfs4") :=
  (C4_Dialer_unsupported (fun _ => none)
    { sampleServer with PluggableTransport := "obfs4" } "dev" rfl).1

/-- C2 (counterexample): on a request that already carries an
`X-LANTERN-AUTH-TOKEN` value, `attachHeaders` with an empty effective token
leaves that header present, so "the header is absent from the request" fails
for this request. -/
theorem C2_counterexample :
    ({ sampleServer with AuthToken := "" }.attachHeaders ""
        { method := "GET", url := "u",
          header := [("X-Lantern-Auth-Token", ["stale"])] } "dev").header.values
      "X-LANTERN-AUTH-TOKEN" = ["stale"] ∧ ["stale"] ≠ ([] : List String) := by
  constructor
  · decide
  · decide

/-- C2 (amended): `attachHeaders` sets `X-LANTERN-DEVICE-ID` to the device
identifier unconditionally; when the effective token (the forced override
when non-empty, otherwise the server's configured token) is non-empty it
appends one `X-LANTERN-AUTH-TOKEN` value equal to it; when the effective
token is empty it adds no auth-token value, so on a request that did not
already carry the header, the header is absent. -/
theorem C2_attachHeaders (s : ChainedServerInfo) (fa : String) (req : Request)
    (dev : String) :
    (s.attachHeaders fa req dev).header.values "X-LANTERN-DEVICE-ID" = [dev] ∧
    (effectiveAuthToken s fa ≠ "" →
      (s.attachHeaders fa req dev).header.values "X-LANTERN-AUTH-TOKEN"
        = req.header.values "X-LANTERN-AUTH-TOKEN" ++ [effectiveAuthToken s fa]) ∧
    (effectiveAuthToken s fa = "" →
      (s.attachHeaders fa req dev).header.values "X-LANTERN-AUTH-TOKEN"
        = req.header.values "X-LANTERN-AUTH-TOKEN") ∧
    (effectiveAuthToken s fa = "" → req.header.values "X-LANTERN-AUTH-TOKEN" = [] →
      (s.attachHeaders fa req dev).header.values "X-LANTERN-AUTH-TOKEN" = []) ∧
    (fa ≠ "" → effectiveAuthToken s fa = fa) ∧
    (fa = "" → effectiveAuthToken s fa = s.AuthToken) := by
  refine ⟨attachHeaders_deviceID s fa req dev,
    fun h => attachHeaders_authToken_nonempty s fa req dev h,
    fun h => attachHeaders_authToken_empty s fa req dev h, ?_, ?_, ?_⟩
  · intro h1 h2
    rw [attachHeaders_authToken_empty s fa req dev h1, h2]
  · intro h
    simp [effectiveAuthToken, h]
  · intro h
    simp [effectiveAuthToken, h]

theorem C2_attachHeaders_witness :
    (sampleServer.attachHeaders "" sampleRequest "dev").header.values
      "X-LANTERN-AUTH-TOKEN" = ["T"] ∧
    (sampleServer.attachHeaders "O" sampleRequest "dev").header.values
      "X-LANTERN-AUTH-TOKEN" = ["O"] ∧
    ({ sampleServer with AuthToken := "" }.attachHeaders "" sampleRequest
      "dev").header.values "X-LANTERN-AUTH-TOKEN" = [] ∧
    (sampleServer.attachHeaders "" sampleRequest "dev").header.values
      "X-LANTERN-DEVICE-ID" = ["dev"] := by
  refine ⟨?_, ?_, ?_, ?_⟩
  · rw [(C2_attachHeaders sampleServer "" sampleRequest "dev").2.1 (by decide)]
    decide
  · rw [(C2_attachHeaders sampleServer "O" sampleRequest "dev").2.1 (by decide)]
    decide
  · exact (C2_attachHeaders { sampleServer with AuthToken := "" } "" sampleRequest
      "dev").2.2.2.1 (by decide) (by decide)
  · exact (C2_attachHeaders sampleServer "" sampleRequest "dev").1

/-- C10 (counterexample): on a request that already carries one
`X-LANTERN-AUTH-TOKEN` value, applying `attachHeaders` twice leaves three
values, not two, so "leaves two X-LANTERN-AUTH-TOKEN values" fails for this
request. -/
theorem C10_counterexample :
    ((sampleServer.attachHeaders ""
        (sampleServer.attachHeaders ""
          { method := "GET", url := "u",
            header := [("X-Lantern-Auth-Token", ["stale"])] } "dev")
        "dev").header.values "X-LANTERN-AUTH-TOKEN") = ["stale", "T", "T"] ∧
    (["stale", "T", "T"] : List String).length ≠ 2 := by
  constructor
  · decide
  · decide

/-- C10 (amended): for a non-empty effective auth token, applying
`attachHeaders` twice leaves exactly one `X-LANTERN-DEVICE-ID` value (the
second `Set` overwrites) while each application appends one
`X-LANTERN-AUTH-TOKEN` value; on a request that did not already carry the
auth-token header, exactly two values remain. -/
theorem C10_attachHeaders_twice (s : ChainedServerInfo) (fa : String)
    (req : Request) (dev : String) (htok : effectiveAuthToken s fa ≠ "") :
    (s.attachHeaders fa (s.attachHeaders fa req dev) dev).header.values
      "X-LANTERN-DEVICE-ID" = [dev] ∧
    (s.attachHeaders fa (s.attachHeaders fa req dev) dev).header.values
      "X-LANTERN-AUTH-TOKEN"
      = req.header.values "X-LANTERN-AUTH-TOKEN"
        ++ [effectiveAuthToken s fa, effectiveAuthToken s fa] ∧
    (req.header.values "X-LANTERN-AUTH-TOKEN" = [] →
      ((s.attachHeaders fa (s.attachHeaders fa req dev) dev).header.values
        "X-LANTERN-AUTH-TOKEN").length = 2) := by
  have h2 : (s.attachHeaders fa (s.attachHeaders fa req dev) dev).header.values
      "X-LANTERN-AUTH-TOKEN"
      = req.header.values "X-LANTERN-AUTH-TOKEN"
        ++ [effectiveAuthToken s fa, effectiveAuthToken s fa] := by
    rw [attachHeaders_authToken_nonempty s fa _ dev htok,
      attachHeaders_authToken_nonempty s fa req dev htok, List.append_assoc]
    rfl
  refine ⟨attachHeaders_deviceID s fa _ dev, h2, fun hempty => ?_⟩
  rw [h2, hempty]
  rfl

theorem C10_attachHeaders_twice_witness :
    (sampleServer.attachHeaders "" (sampleServer.attachHeaders "" sampleRequest
      "dev") "dev").header.values "X-LANTERN-AUTH-TOKEN" = ["T", "T"] ∧
    (sampleServer.attachHeaders "" (sampleServer.attachHeaders "" sampleRequest
      "dev") "dev").header.values "X-LANTERN-DEVICE-ID" = ["dev"] := by
  have h := C10_attachHeaders_twice sampleServer "" sampleRequest "dev" (by decide)
  refine ⟨?_, h.1⟩
  rw [h.2.1]
  decide

/-- C5: `addCheckTarget` skips (without error) an address that does not split
into host and port, skips a port other than 80, skips a host under an
internal-site suffix, and otherwise adds the address to the check-target set;
concretely "1.2.3.4:80" inserts, "1.2.3.4:443" does not, and
"sub.getlantern.org:80" does not. -/
theorem C5_addCheckTarget (s : ChainedServerInfo) (addr host port : String) :
    (splitHostPort addr = none → s.addCheckTarget addr = s) ∧
    (splitHostPort addr = some (host, port) → port ≠ "80" →
      s.addCheckTarget addr = s) ∧
    (splitHostPort addr = some (host, port) →
      internalSiteSuffixes.any (fun suf => hasSuffix host suf) = true →
      s.addCheckTarget addr = s) ∧
    (splitHostPort addr = some (host, port) → port = "80" →
      internalSiteSuffixes.any (fun suf => hasSuffix host suf) = false →
      s.addCheckTarget addr = { s with checkTargets := s.checkTargets.add addr }) ∧
    (sampleServer.addCheckTarget "1.2.3.4:80"
      = { sampleServer with checkTargets := ⟨some (10, ["1.2.3.4:80"])⟩ }) ∧
    (sampleServer.addCheckTarget "1.2.3.4:443" = sampleServer) ∧
    (sampleServer.addCheckTarget "sub.getlantern.org:80" = sampleServer) := by
  refine ⟨?_, ?_, ?_, ?_, by decide, by decide, by decide⟩
  · intro h
    simp [ChainedServerInfo.addCheckTarget, h]
  · intro h hp
    simp [ChainedServerInfo.addCheckTarget, h, hp]
  · intro h hs
    by_cases hp : port ≠ "80"
    · simp [ChainedServerInfo.addCheckTarget, h, hp]
    · simp [ChainedServerInfo.addCheckTarget, h, hp, hs]
  · intro h hp hs
    simp [ChainedServerInfo.addCheckTarget, h, hp, hs]

theorem C5_addCheckTarget_witness :
    (sampleServer.addCheckTarget "nocolon" = sampleServer) ∧
    (sampleServer.addCheckTarget "7.7.7.7:443" = sampleServer) ∧
    (sampleServer.addCheckTarget "x.lantern.io:80" = sampleServer) ∧
    (sampleServer.addCheckTarget "9.9.9.9:80"
      = { sampleServer with checkTargets := ⟨some (10, ["9.9.9.9:80"])⟩ }) := by
  refine ⟨?_, ?_, ?_, ?_⟩
  · exact (C5_addCheckTarget sampleServer "nocolon" "" "").1 (by decide)
  · exact (C5_addCheckTarget sampleServer "7.7.7.7:443" "7.7.7.7" "443").2.1
      (by decide) (by decide)
  · exact (C5_addCheckTarget sampleServer "x.lantern.io:80" "x.lantern.io" "80").2.2.1
      (by decide) (by decide)
  · exact (C5_addCheckTarget sampleServer "9.9.9.9:80" "9.9.9.9" "80").2.2.2.1
      (by decide) (by decide) (by decide)

/-- C6: a check-target set initialized with capacity 10 never holds more than
10 entries under any sequence of adds and gets; an add performed when 10
entries are resident is a silent no-op leaving the entries unchanged; a get
on the empty set returns the empty-string sentinel and leaves the set
unchanged, hence does so on every repetition until an add occurs. -/
theorem C6_siteList_bounded :
    (∀ ops : List SiteOp,
      (runOps (siteList.initIfNecessary ⟨none⟩ 10) ops).size ≤ 10) ∧
    (∀ (elems : List String) (a : String), elems.length = 10 →
      siteList.add ⟨some (10, elems)⟩ a = ⟨some (10, elems)⟩) ∧
    (siteList.get ⟨some (10, [])⟩ = ("", ⟨some (10, [])⟩)) ∧
    (∀ ops : List SiteOp, (∀ o ∈ ops, o = SiteOp.get) →
      runOps ⟨some (10, [])⟩ ops = ⟨some (10, [])⟩) := by
  refine ⟨?_, ?_, rfl, ?_⟩
  · intro ops
    exact siteListInv_size _
      (siteListInv_runOps _ ops (Or.inr ⟨[], rfl, by simp⟩))
  · intro elems a h
    simp [siteList.add, h]
  · intro ops hops
    induction ops with
    | nil => rfl
    | cons o rest ih =>
      have ho := hops o (List.mem_cons_self o rest)
      subst ho
      exact ih fun o hmem => hops o (List.mem_cons_of_mem _ hmem)

theorem C6_siteList_bounded_witness :
    (runOps (siteList.initIfNecessary ⟨none⟩ 10)
      [SiteOp.add "a", SiteOp.add "b", SiteOp.get]).size ≤ 10 ∧
    siteList.add ⟨some (10, ["0", "1", "2", "3", "4", "5", "6", "7", "8", "9"])⟩ "x"
      = ⟨some (10, ["0", "1", "2", "3", "4", "5", "6", "7", "8", "9"])⟩ ∧
    runOps ⟨some (10, [])⟩ [SiteOp.get, SiteOp.get] = ⟨some (10, [])⟩ :=
  ⟨C6_siteList_bounded.1 _,
    C6_siteList_bounded.2.1 _ "x" (by decide),
    C6_siteList_bounded.2.2.2 _ (by decide)⟩

/-- C7: when `check` popped a real (non-empty) target and the probe succeeds
(status `< 500`), that target is pushed back via `add` (hence subject to the
drop-on-full policy); when the popped target was the synthetic sentinel or
the probe fails, the check-target set keeps only the effect of the pop. -/
theorem C7_check_pushback (s : ChainedServerInfo) (fa dev : String)
    (rt : RoundTrip) (timedOut : Bool) (code : Nat) :
    ((s.checkTargets.get).1 ≠ "" → rt = RoundTrip.response code → code < 500 →
      (s.check fa dev rt timedOut).2.2.checkTargets
        = ((s.checkTargets.get).2).add (s.checkTargets.get).1) ∧
    ((s.checkTargets.get).1 = "" →
      (s.check fa dev rt timedOut).2.2.checkTargets = (s.checkTargets.get).2) ∧
    (rt = RoundTrip.transportError →
      (s.check fa dev rt timedOut).2.2.checkTargets = (s.checkTargets.get).2) ∧
    (rt = RoundTrip.response code → 500 ≤ code →
      (s.check fa dev rt timedOut).2.2.checkTargets = (s.checkTargets.get).2) := by
  refine ⟨?_, ?_, ?_, ?_⟩
  · intro ht hrt hc
    subst hrt
    simp [ChainedServerInfo.check, checkInnerBody, ht, hc]
  · intro ht
    cases rt with
    | transportError => simp [ChainedServerInfo.check, checkInnerBody]
    | response c =>
      by_cases hc : c < 500
      · simp [ChainedServerInfo.check, checkInnerBody, ht, hc]
      · simp [ChainedServerInfo.check, checkInnerBody, hc]
  · intro hrt
    subst hrt
    simp [ChainedServerInfo.check, checkInnerBody]
  · intro hrt hc
    subst hrt
    simp [ChainedServerInfo.check, checkInnerBody, Nat.not_lt.mpr hc]

theorem C7_check_pushback_witness :
    (sampleServerLoaded.check "" "dev" (RoundTrip.response 200)
      false).2.2.checkTargets = ⟨some (10, ["t:80"])⟩ ∧
    (sampleServer.check "" "dev" (RoundTrip.response 200)
      false).2.2.checkTargets = ⟨some (10, [])⟩ ∧
    (sampleServerLoaded.check "" "dev" (RoundTrip.response 503)
      false).2.2.checkTargets = ⟨some (10, [])⟩ := by
  refine ⟨?_, ?_, ?_⟩
  · exact ((C7_check_pushback sampleServerLoaded "" "dev" _ false 200).1
      (by decide) rfl (by decide)).trans (by decide)
  · exact ((C7_check_pushback sampleServer "" "dev" _ false 200).2.1
      (by decide)).trans (by decide)
  · exact ((C7_check_pushback sampleServerLoaded "" "dev" _ false 503).2.2.2
      rfl (by decide)).trans (by decide)

/-- C8: the probe target of `check` is the value popped from the
check-target set; for the empty sentinel the probe request is a HEAD to the
synthetic URL `http://ping-chained-server` carrying `X-Lantern-Ping`; for a
real target `t` it is a HEAD to `http://t/index.html` without the
`X-Lantern-Ping` header. -/
theorem C8_check_probe (s : ChainedServerInfo) (fa dev : String)
    (rt : RoundTrip) (timedOut : Bool) :
    (s.check fa dev rt timedOut).2.1.method = "HEAD" ∧
    (s.check fa dev rt timedOut).2.1.url
      = (if (s.checkTargets.get).1 = "" then "http://ping-chained-server"
         else "http://" ++ (s.checkTargets.get).1 ++ "/index.html") ∧
    (s.check fa dev rt timedOut).2.1.header.values "X-Lantern-Ping"
      = (if (s.checkTargets.get).1 = "" then ["small"] else []) := by
  have hreq : (s.check fa dev rt timedOut).2.1
      = checkRequest s fa dev (s.checkTargets.get).1 := rfl
  refine ⟨?_, ?_, ?_⟩
  · rw [hreq]
    simp only [checkRequest]
    rw [attachHeaders_method]
    split <;> rfl
  · rw [hreq]
    simp only [checkRequest]
    rw [attachHeaders_url]
    by_cases ht : (s.checkTargets.get).1 = "" <;> simp [ht]
  · rw [hreq]
    simp only [checkRequest]
    rw [attachHeaders_values_other _ _ _ _ _ (by decide) (by decide)]
    by_cases ht : (s.checkTargets.get).1 = ""
    · simp [ht, Header.values_set_same]
    · simp [ht]
      rfl

/-- C9: the forced chained-proxy address override changes observable
behavior: for the default transport (spec-modelled, the registry entries
being outside the snippet), some server configuration and device identifier
yield a built dialer whose dial path targets a different upstream address
when the override is set than when it is empty. -/
theorem C9_forceChainedProxyAddr_observable :
    ∃ (s : ChainedServerInfo) (dev fa : String), fa ≠ "" ∧
      builtDialServerAddr (Dialer (defaultRegistry "") s dev)
        ≠ builtDialServerAddr (Dialer (defaultRegistry fa) s dev) :=
  ⟨sampleServer, "dev", "1.2.3.4:80", by decide, by decide⟩

end Chained
